import Mathlib

/-!
Shallow embedding of `multimodel_ollama.py` (Multi-Model-AI-System).

External effects are made explicit: HTTP requests against the Ollama
backend and the `ollama pull` subprocess are modelled by an environment
record, and each function returns, besides its value, the trace of
external calls it issued.  The embedded functions keep the names and the
control flow of the Python source.
-/

/-- Outcome of the `ollama pull` subprocess: clean or non-zero exit,
expiry of the `timeout=1800` bound, or any other exception. -/
inductive PullOutcome where
  | exited (code : Int)
  | timedOut
  | raised (msg : String)
deriving DecidableEq

/-- Parsed body of a successful `GET /api/tags` response: the HTTP status
code and the `name` fields of the `models` array. -/
structure TagsResponse where
  status_code : Nat
  models : List String
deriving DecidableEq

/-- Environment of external effects: `get url timeout_s` is the outcome of
`requests.get` (`none` models a `requests.exceptions.RequestException`),
and `pull name` is the outcome of running `ollama pull name`. -/
structure OllamaEnv where
  get : String → Option Nat → Option TagsResponse
  pull : String → PullOutcome

/-- Record of one `requests.get` call: URL and timeout argument. -/
structure GetRequest where
  url : String
  timeout_s : Option Nat
deriving DecidableEq

/-- Record of one `subprocess.run(["ollama", "pull", model], ..., timeout=...)`
invocation. -/
structure PullInvocation where
  model : String
  timeout_s : Nat
deriving DecidableEq

/-- State built by `OllamaManager.__init__`. -/
structure OllamaManager where
  base_url : String
  api_url : String
deriving DecidableEq

/-- Constructor `OllamaManager(base_url="http://localhost:11434")`. -/
def OllamaManager.init (base_url : String := "http://localhost:11434") : OllamaManager :=
  ⟨base_url, base_url ++ "/api"⟩

/-- Embeds `OllamaManager.check_ollama_status`: probe `GET {base_url}/api/tags`
with a 5 second timeout; true iff status code 200; false on request
exception.  The second component is the trace of HTTP calls issued. -/
def check_ollama_status (self : OllamaManager) (env : OllamaEnv) :
    Bool × List GetRequest :=
  let req : GetRequest := ⟨self.base_url ++ "/api/tags", some 5⟩
  match env.get req.url req.timeout_s with
  | none => (false, [req])
  | some response => (response.status_code == 200, [req])

/-- Embeds `OllamaManager.list_available_models`: `GET {api_url}/tags` with no
timeout; the model names on status 200, `[]` on any other status or on a
request exception. -/
def list_available_models (self : OllamaManager) (env : OllamaEnv) :
    List String × List GetRequest :=
  let req : GetRequest := ⟨self.api_url ++ "/tags", none⟩
  match env.get req.url req.timeout_s with
  | none => ([], [req])
  | some response =>
      (if response.status_code == 200 then response.models else [], [req])

/-- Embeds `OllamaManager.check_model_availability`:
`any(model_name in model for model in available_models)` — `in` is the
Python substring test, embedded as `List.isInfixOf` on the character
lists. -/
def check_model_availability (self : OllamaManager) (env : OllamaEnv)
    (model_name : String) : Bool :=
  let available_models := (list_available_models self env).1
  available_models.any (fun model => decide (model_name.data <:+: model.data))

/-- Embeds `OllamaManager.pull_model_if_needed`: immediate true when the
model is already available; otherwise run `ollama pull` with
`timeout=1800`, returning true on exit code 0 and false on non-zero exit,
timeout expiry, or any other exception.  The second component is the trace
of subprocess invocations. -/
def pull_model_if_needed (self : OllamaManager) (env : OllamaEnv)
    (model_name : String) : Bool × List PullInvocation :=
  if check_model_availability self env model_name then
    (true, [])
  else
    let inv : PullInvocation := ⟨model_name, 1800⟩
    match env.pull model_name with
    | .exited code => (if code == 0 then true else false, [inv])
    | .timedOut => (false, [inv])
    | .raised _ => (false, [inv])

/-- Default manager, as built by `MultiModelCrew.__init__`. -/
def mgrDefault : OllamaManager := OllamaManager.init

/-- Test environment: every HTTP request fails with a request exception,
every pull times out. -/
def envNoNetwork : OllamaEnv := ⟨fun _ _ => none, fun _ => .timedOut⟩

/-- Test environment: every HTTP request answers with the given status and
catalog, every pull has the given outcome. -/
def envCatalog (status : Nat) (models : List String) (p : PullOutcome) : OllamaEnv :=
  ⟨fun _ _ => some ⟨status, models⟩, fun _ => p⟩

/-- C1: when the model is already available, `pull_model_if_needed` returns
true with no subprocess invocation; otherwise it invokes `ollama pull`
exactly once with the 1800-second ceiling and returns true iff that
invocation exits with code 0 (false on timeout or non-zero exit, with no
retry). -/
theorem pull_model_if_needed_spec (self : OllamaManager) (env : OllamaEnv)
    (model_name : String) :
    (check_model_availability self env model_name = true →
      pull_model_if_needed self env model_name = (true, [])) ∧
    (check_model_availability self env model_name = false →
      (pull_model_if_needed self env model_name).2 = [⟨model_name, 1800⟩] ∧
      ((pull_model_if_needed self env model_name).1 = true ↔
        env.pull model_name = .exited 0)) := by
  constructor
  · intro h
    simp [pull_model_if_needed, h]
  · intro h
    unfold pull_model_if_needed
    rw [h]
    simp only [Bool.false_eq_true, if_false]
    cases hp : env.pull model_name with
    | exited code =>
        refine ⟨rfl, ?_⟩
        by_cases hc : code = 0
        · subst hc; simp
        · simp [hc]
    | timedOut => simp
    | raised msg => simp

/-- Witness for C1 at a concrete input: with an empty catalog the model is
unavailable, the download is invoked once with the 1800-second ceiling,
and since the pull exits with code 1 the call reports failure. -/
theorem pull_model_if_needed_spec_witness :
    (pull_model_if_needed mgrDefault (envCatalog 200 [] (.exited 1)) "gemma3:1b").2 =
      [⟨"gemma3:1b", 1800⟩] ∧
    ((pull_model_if_needed mgrDefault (envCatalog 200 [] (.exited 1)) "gemma3:1b").1 = true ↔
      (envCatalog 200 [] (.exited 1)).pull "gemma3:1b" = .exited 0) :=
  (pull_model_if_needed_spec mgrDefault (envCatalog 200 [] (.exited 1)) "gemma3:1b").2
    (by decide)

/-- C2: `check_model_availability` is true iff the requested name occurs as
a substring of some catalog entry; concretely, "gemma3" is reported
available when the catalog holds "gemma3:1b", and unavailable when the
catalog is empty. -/
theorem check_model_availability_spec (self : OllamaManager) (env : OllamaEnv)
    (model_name : String) :
    (check_model_availability self env model_name = true ↔
      ∃ model ∈ (list_available_models self env).1, model_name.data <:+: model.data) ∧
    check_model_availability mgrDefault (envCatalog 200 ["gemma3:1b"] .timedOut) "gemma3" = true ∧
    check_model_availability mgrDefault (envCatalog 200 [] .timedOut) "gemma3" = false := by
  refine ⟨?_, by decide, by decide⟩
  simp [check_model_availability, List.any_eq_true]

/-- C8: on a network failure of the probe (a request exception),
`check_ollama_status` returns false — it does not raise, by totality of
the embedding — and its HTTP trace is a single `GET {base_url}/api/tags`
with a 5-second timeout: no retry. -/
theorem check_ollama_status_network_failure (self : OllamaManager) (env : OllamaEnv)
    (h : env.get (self.base_url ++ "/api/tags") (some 5) = none) :
    check_ollama_status self env = (false, [⟨self.base_url ++ "/api/tags", some 5⟩]) := by
  simp [check_ollama_status, h]

/-- Witness for C8: with no network every probe fails and the status check
returns false after a single 5-second-timeout request. -/
theorem check_ollama_status_network_failure_witness :
    check_ollama_status mgrDefault envNoNetwork =
      (false, [⟨"http://localhost:11434/api/tags", some 5⟩]) :=
  check_ollama_status_network_failure mgrDefault envNoNetwork rfl

/-- C9: when the probe completes with a response, `check_ollama_status` is
true iff the HTTP status is exactly 200 — any other status, such as a 500
from a reachable but unhealthy backend, also yields false. -/
theorem check_ollama_status_iff_200 (self : OllamaManager) (env : OllamaEnv)
    (response : TagsResponse)
    (h : env.get (self.base_url ++ "/api/tags") (some 5) = some response) :
    ((check_ollama_status self env).1 = true ↔ response.status_code = 200) := by
  simp [check_ollama_status, h]

/-- Witness for C9: a backend answering 500 is reported as not running. -/
theorem check_ollama_status_iff_200_witness :
    ((check_ollama_status mgrDefault (envCatalog 500 [] .timedOut)).1 = true ↔
      (500 : Nat) = 200) :=
  check_ollama_status_iff_200 mgrDefault (envCatalog 500 [] .timedOut) ⟨500, []⟩ rfl

/-- Embeds the `ModelStrength` enum. -/
inductive ModelStrength where
  | ANALYTICAL
  | EXECUTION
  | REASONING
deriving DecidableEq

/-- Embeds the `ModelConfig` dataclass. -/
structure ModelConfig where
  name : String
  ollama_model : String
  strength : ModelStrength
  role : String
  description : String
  temperature : ℚ
  context_window : Nat
deriving DecidableEq

/-- The "analyst" entry of `_setup_model_configurations`. -/
def cfg_analyst : ModelConfig :=
  ⟨"Qwen Analyst", "qwen3:1.7b", .ANALYTICAL, "Problem Analyst",
    "analytical thinking, problem decomposition, creating a ToDo list",
    0.3, 32768⟩

/-- The "researcher" entry of `_setup_model_configurations`. -/
def cfg_researcher : ModelConfig :=
  ⟨"DeepSeek Researcher", "deepseek-r1:8b", .REASONING, "Information Researcher",
    "Accessing the internet and local files to gather information.",
    0.6, 128000⟩

/-- The "synthesizer" entry of `_setup_model_configurations`. -/
def cfg_synthesizer : ModelConfig :=
  ⟨"Gemma3 Synthesizer", "gemma3:1b", .EXECUTION, "Solution Synthesizer",
    "Synthesizes information into a final answer based on research.",
    0.6, 32768⟩

/-- Embeds `MultiModelCrew._setup_model_configurations` (a Python dict in
insertion order: analyst, researcher, synthesizer). -/
def setup_model_configurations : List (String × ModelConfig) :=
  [("analyst", cfg_analyst), ("researcher", cfg_researcher),
   ("synthesizer", cfg_synthesizer)]

/-- Connection descriptor built by the `LLM(...)` constructor call in
`_setup_llm_connections`. -/
structure LLMConn where
  model : String
  base_url : String
  temperature : ℚ
  max_tokens : Nat
  top_p : ℚ
  frequency_penalty : ℚ
  presence_penalty : ℚ
deriving DecidableEq

/-- Embeds the `LLM(model=f"ollama/{config.ollama_model}", ...)` call with
its fixed parameters. -/
def LLM (config : ModelConfig) : LLMConn :=
  ⟨"ollama/" ++ config.ollama_model, "http://localhost:11434",
    config.temperature, 4096, 0.9, 0, 0⟩

/-- Embeds `MultiModelCrew._setup_llm_connections`: one connection per
configured role, keyed like `models_config`. -/
def setup_llm_connections (models_config : List (String × ModelConfig)) :
    List (String × LLMConn) :=
  models_config.map (fun kc => (kc.1, LLM kc.2))

/-- Embeds a crewai `Agent(...)` value as constructed in `solve_problem`:
role, goal, backstory, the LLM looked up in `self.llms`, tool names,
verbose and delegation flags. -/
structure AgentT where
  role : String
  goal : String
  backstory : String
  llm : Option LLMConn
  tools : List String
  verbose : Bool
  allow_delegation : Bool
deriving DecidableEq

/-- State of a `MultiModelCrew` instance (the fields set in `__init__`;
the two tool objects are represented by their names inside agents). -/
structure MultiModelCrew where
  ollama_manager : OllamaManager
  models_config : List (String × ModelConfig)
  llms : List (String × LLMConn)
  agents : List (String × AgentT)
  knowledge_base : List (String × String)
deriving DecidableEq

/-- Embeds `MultiModelCrew.__init__`: default manager, the three model
configurations, and empty `llms`, `agents`, `knowledge_base` dicts. -/
def MultiModelCrew.init : MultiModelCrew :=
  ⟨OllamaManager.init, setup_model_configurations, [], [], []⟩

/-- Observable outcome of `initialize_system`: the returned Bool, the
models for which `pull_model_if_needed` was called, the external download
invocations issued, and whether `_setup_llm_connections` was reached. -/
structure InitResult where
  ok : Bool
  pull_calls : List String
  pull_invocations : List PullInvocation
  setup_called : Bool
deriving DecidableEq

/-- One iteration of the download loop in `initialize_system`: call
`pull_model_if_needed`, and-accumulate `models_ready`, record the call and
any subprocess invocations. -/
def download_step (self : OllamaManager) (env : OllamaEnv)
    (acc : Bool × List String × List PullInvocation)
    (kc : String × ModelConfig) : Bool × List String × List PullInvocation :=
  let r := pull_model_if_needed self env kc.2.ollama_model
  (acc.1 && r.1, acc.2.1 ++ [kc.2.ollama_model], acc.2.2 ++ r.2)

/-- Embeds `MultiModelCrew.initialize_system`: abort on a failed health
check; loop over all configured models calling `pull_model_if_needed`
(the loop clears `models_ready` on failure but keeps iterating); abort if
any model failed; otherwise populate `self.llms` via
`_setup_llm_connections` and report success. -/
def initialize_system (self : MultiModelCrew) (env : OllamaEnv) :
    MultiModelCrew × InitResult :=
  if (check_ollama_status self.ollama_manager env).1 = false then
    (self, ⟨false, [], [], false⟩)
  else
    let loop := self.models_config.foldl
      (download_step self.ollama_manager env) (true, [], [])
    if loop.1 = false then
      (self, ⟨false, loop.2.1, loop.2.2, false⟩)
    else
      (⟨self.ollama_manager, self.models_config,
        setup_llm_connections self.models_config, self.agents,
        self.knowledge_base⟩,
       ⟨true, loop.2.1, loop.2.2, true⟩)

/-- Running the download loop ands the initial flag with the success of
every configured pull. -/
theorem download_loop_fst (self : OllamaManager) (env : OllamaEnv)
    (l : List (String × ModelConfig)) :
    ∀ (b : Bool) (xs : List String) (ys : List PullInvocation),
    (l.foldl (download_step self env) (b, xs, ys)).1 =
      (b && l.all (fun kc => (pull_model_if_needed self env kc.2.ollama_model).1)) := by
  induction l with
  | nil => intro b xs ys; simp
  | cons kc rest ih =>
      intro b xs ys
      simp only [List.foldl_cons, List.all_cons, download_step]
      rw [ih, Bool.and_assoc]

/-- The download loop calls `pull_model_if_needed` for every configured
model, in configuration order, regardless of failures. -/
theorem download_loop_calls (self : OllamaManager) (env : OllamaEnv)
    (l : List (String × ModelConfig)) :
    ∀ (b : Bool) (xs : List String) (ys : List PullInvocation),
    (l.foldl (download_step self env) (b, xs, ys)).2.1 =
      xs ++ l.map (fun kc => kc.2.ollama_model) := by
  induction l with
  | nil => intro b xs ys; simp
  | cons kc rest ih =>
      intro b xs ys
      simp only [List.foldl_cons, List.map_cons, download_step]
      rw [ih]
      simp

/-- C3: `initialize_system` fails fast — on a failed health check, or when
some configured model fails to provision, it returns false, leaves the
`llms` registry empty (given it started empty, as in `__init__`), and
never reaches `_setup_llm_connections`. -/
theorem initialize_system_fail_fast (self : MultiModelCrew) (env : OllamaEnv)
    (hllms : self.llms = []) :
    ((check_ollama_status self.ollama_manager env).1 = false →
      (initialize_system self env).2.ok = false ∧
      (initialize_system self env).1.llms = [] ∧
      (initialize_system self env).2.setup_called = false) ∧
    ((∃ kc ∈ self.models_config,
        (pull_model_if_needed self.ollama_manager env kc.2.ollama_model).1 = false) →
      (initialize_system self env).2.ok = false ∧
      (initialize_system self env).1.llms = [] ∧
      (initialize_system self env).2.setup_called = false) := by
  constructor
  · intro h
    simp [initialize_system, h, hllms]
  · intro h
    by_cases hs : (check_ollama_status self.ollama_manager env).1 = false
    · simp [initialize_system, hs, hllms]
    · have hall : (self.models_config.all
          (fun kc => (pull_model_if_needed self.ollama_manager env kc.2.ollama_model).1)) = false := by
        rw [List.all_eq_false]
        obtain ⟨kc, hmem, hfail⟩ := h
        exact ⟨kc, hmem, by simp [hfail]⟩
      have hloop : (self.models_config.foldl
          (download_step self.ollama_manager env) (true, [], [])).1 = false := by
        rw [download_loop_fst, hall, Bool.and_false]
      simp [initialize_system, hs, hloop, hllms]

/-- Witness for C3: a healthy backend with an empty catalog and a download
that exits with code 1 makes initialization fail with the connection
registry left empty and the connection-setup phase never reached. -/
theorem initialize_system_fail_fast_witness :
    MultiModelCrew.init.llms = [] ∧
    (initialize_system MultiModelCrew.init (envCatalog 200 [] (.exited 1))).2.ok = false ∧
    (initialize_system MultiModelCrew.init (envCatalog 200 [] (.exited 1))).1.llms = [] ∧
    (initialize_system MultiModelCrew.init (envCatalog 200 [] (.exited 1))).2.setup_called = false :=
  ⟨rfl,
    (initialize_system_fail_fast MultiModelCrew.init (envCatalog 200 [] (.exited 1)) rfl).2
      ⟨("analyst", cfg_analyst), by simp [MultiModelCrew.init, setup_model_configurations],
        by decide⟩⟩

/-- C10: when the health check passes, `initialize_system` calls
`pull_model_if_needed` for every configured model in order — even when an
earlier model failed to provision — so with the standard configuration the
provisioning of all three models is attempted before any false return. -/
theorem initialize_system_attempts_all (self : MultiModelCrew) (env : OllamaEnv)
    (h : (check_ollama_status self.ollama_manager env).1 = true) :
    (initialize_system self env).2.pull_calls =
      self.models_config.map (fun kc => kc.2.ollama_model) ∧
    (self.models_config = setup_model_configurations →
      (initialize_system self env).2.pull_calls =
        ["qwen3:1.7b", "deepseek-r1:8b", "gemma3:1b"]) := by
  have hs : ¬((check_ollama_status self.ollama_manager env).1 = false) := by
    simp [h]
  have hcalls : (initialize_system self env).2.pull_calls =
      self.models_config.map (fun kc => kc.2.ollama_model) := by
    unfold initialize_system
    rw [if_neg hs]
    by_cases hl : (self.models_config.foldl
        (download_step self.ollama_manager env) (true, [], [])).1 = false
    · simp only [hl, if_true]
      exact (download_loop_calls self.ollama_manager env self.models_config true [] []).trans
        (List.nil_append _)
    · simp only [hl, if_false]
      exact (download_loop_calls self.ollama_manager env self.models_config true [] []).trans
        (List.nil_append _)
  refine ⟨hcalls, fun hcfg => ?_⟩
  rw [hcalls, hcfg]
  decide

/-- Witness for C10: with a healthy backend, an empty catalog and failing
downloads, initialization returns false yet all three configured models
were attempted, in configuration order. -/
theorem initialize_system_attempts_all_witness :
    (check_ollama_status MultiModelCrew.init.ollama_manager (envCatalog 200 [] (.exited 1))).1 = true ∧
    (initialize_system MultiModelCrew.init (envCatalog 200 [] (.exited 1))).2.ok = false ∧
    (initialize_system MultiModelCrew.init (envCatalog 200 [] (.exited 1))).2.pull_calls =
      ["qwen3:1.7b", "deepseek-r1:8b", "gemma3:1b"] :=
  ⟨by decide, by decide,
    (initialize_system_attempts_all MultiModelCrew.init (envCatalog 200 [] (.exited 1))
      (by decide)).2 rfl⟩

/-- Embeds the crewai `Process` enum (only `sequential` is used). -/
inductive ProcessT where
  | sequential
  | hierarchical
deriving DecidableEq

/-- Embeds the `embedder` configuration dict passed to `Crew(...)`. -/
structure EmbedderConfig where
  provider : String
  model : String
  base_url : String
deriving DecidableEq

/-- Embeds a crewai `Task(...)` value: description, expected output, the
agent bound to it, and the declared context tasks whose outputs it
consumes. -/
inductive TaskT where
  | mk (description expected_output : String) (agent : AgentT) (context : List TaskT)

/-- Description field of a task. -/
def TaskT.description : TaskT → String
  | .mk d _ _ _ => d

/-- Expected-output field of a task. -/
def TaskT.expected_output : TaskT → String
  | .mk _ e _ _ => e

/-- Agent field of a task. -/
def TaskT.agent : TaskT → AgentT
  | .mk _ _ a _ => a

/-- Declared context of a task. -/
def TaskT.context : TaskT → List TaskT
  | .mk _ _ _ c => c

/-- Embeds the `Crew(...)` value built in `solve_problem`. -/
structure CrewT where
  agents : List AgentT
  tasks : List TaskT
  process : ProcessT
  verbose : Bool
  memory : Bool
  max_rpm : Nat
  embedder : EmbedderConfig

/-- Embeds the analyst `Agent(...)` construction in `solve_problem`. -/
def analyst_agent (self : MultiModelCrew) : AgentT :=
  ⟨"Problem Analyst and Strategist",
   "First, analyze a problem to determine if it can be solved with internal logical reasoning or if it requires internet research. Then, create a precise plan that consist of either search or reasoning for the next agent to follow. Do not search over the internet, your job is to decide if the next agent needs to search the internet or not, along with a to-do list.",
   "You are a master strategist. Your first step is always to determine the nature of the problem: does it require new information, or can it be solved with logic and existing knowledge? Based on this, you produce a clear, actionable plan that explicitly states whether to search the web or to use reasoning. You never execute the plan yourself; you only create it.",
   List.lookup ("analyst") self.llms,
   [],
   true,
   false⟩

/-- Embeds the researcher `Agent(...)` construction in `solve_problem`
(its two tools are represented by their class names). -/
def researcher_agent (self : MultiModelCrew) : AgentT :=
  ⟨"Conditional Information Processor",
   "Execute a plan from the Problem Analyst. You will either perform internet research or use your internal knowledge based *only* on the instructions in the plan. IF YOU PERFORM A SEARCH AND SCRAPE A WEBSITE, YOU MUST SUMMARIZE OR EXTRACT ONLY THE MOST RELEVANT INFORMATION FROM THE SCRAPED CONTENT THAT DIRECTLY ANSWERS THE ORIGINAL PROBLEM OR PLAN QUERY. DO NOT PASS RAW, UNPROCESSED LARGE TEXT BLOCKS TO THE NEXT AGENT. Your final output should be a concise, relevant report.",
   "You are a hyper-efficient, silent processor. You follow plans with precision. If a plan requires reasoning, you provide a detailed report. If the plan requires a search, you perform the search, scrape the most relevant URL, AND THEN CRITICALLY, you process the scraped data by summarizing or extracting only the key points relevant to the original query, significantly reducing its size before passing it on. You understand that passing extremely large raw text blocks will cause failures.",
   List.lookup ("researcher") self.llms,
   ["BraveSearchTool", "ScrapeWebsiteTool"],
   true,
   false⟩

/-- Embeds the synthesizer `Agent(...)` construction in `solve_problem`. -/
def synthesizer_agent (self : MultiModelCrew) : AgentT :=
  ⟨"Solution Synthesizer",
   "Methodically review the gathered information from the researcher and compile a final, comprehensive answer.",
   "You are a focused writer. You DO NOT perform research. You receive a research report and your only job is to format it into a final, comprehensive answer that directly addresses the original user\x27s question.",
   List.lookup ("synthesizer") self.llms,
   [],
   true,
   false⟩

/-- Embeds the f-string description of `analysis_task` (the only task text
that interpolates the problem). -/
def analysis_description (problem : String) : String :=
  "Analyze the following problem: \x27" ++ problem ++ "\x27.\n" ++
  "                    First, decide if this problem requires an internet search to acquire new information or if it can be solved with logical reasoning alone.\n" ++
  "                    Based on your decision, generate a plan.\n" ++
  "                    If an internet search is required, begin your output with the single word \"SEARCH\" on the first line, followed by a numbered list of 2-4 specific search queries.\n" ++
  "                    If no search is required, begin your output with the single word \"REASON\" on the first line, followed by a logical outline of steps to reason through the problem."

/-- Expected output of `analysis_task` (a constant string). -/
def analysis_expected_output : String :=
  "A plan that starts with either \"SEARCH\" or \"REASON\" on the first line.\n" ++
  "                    If the first line is \"SEARCH\", it is followed by a numbered list of actionable search queries.\n" ++
  "                    If the first line is \"REASON\", it is followed by a conceptual outline for solving the problem using logic."

/-- Description of `research_task` (a constant string: it does not mention
the problem). -/
def research_description : String :=
  "Read the plan provided by the Problem Analyst.\n" ++
  "                                    - If the plan says \"SEARCH\", perform the search. Then, take the most relevant URL from the search results and use the scrape tool to read its content.\n" ++
  "                                    ***CRITICAL STEP***: AFTER SCRAPING THE CONTENT, YOU MUST PROCESS IT. Summarize or extract only the most relevant information from the scraped webpage that directly addresses the original problem or the specific search query from the plan. DO NOT include the entire scraped text in your final output. The goal is to drastically reduce the amount of text passed to the next agent.\n" ++
  "                                    - If the plan says \"REASON\", use your internal knowledge to answer.\n" ++
  "                                    Your final output should be the processed, concise information you gathered, whether from the summarized scraped content or internal knowledge."

/-- Expected output of `research_task` (a constant string). -/
def research_expected_output : String :=
  "A detailed but CONCISE report of the information gathered. If data was scraped, this report MUST be a significantly summarized or extracted version of the scraped content, focusing only on the most relevant parts. This processed report will be passed to the synthesizer."

/-- Description of `synthesis_task` (a constant string: it mentions
neither the problem nor the plan). -/
def synthesis_description : String :=
  "You have been given a report by the \x27Conditional Information Processor\x27. Your task is to compile this information into a final, well-structured answer.\n" ++
  "                    Do not add new information or deviate from the provided report.\n" ++
  "                    Base your entire final answer on the results from the report."

/-- Expected output of `synthesis_task` (a constant string). -/
def synthesis_expected_output : String :=
  "A comprehensive, well-structured final answer that is the direct result of the research or reasoning. The answer must directly address the original problem."

/-- Embeds `analysis_task`: bound to the analyst, no declared context. -/
def analysis_task (self : MultiModelCrew) (problem : String) : TaskT :=
  .mk (analysis_description problem) analysis_expected_output (analyst_agent self) []

/-- Embeds `research_task`: bound to the researcher, declared context
`[analysis_task]`. -/
def research_task (self : MultiModelCrew) (problem : String) : TaskT :=
  .mk research_description research_expected_output (researcher_agent self)
    [analysis_task self problem]

/-- Embeds `synthesis_task`: bound to the synthesizer, declared context
`[research_task]`. -/
def synthesis_task (self : MultiModelCrew) (problem : String) : TaskT :=
  .mk synthesis_description synthesis_expected_output (synthesizer_agent self)
    [research_task self problem]

/-- Embeds the `Crew(...)` construction in `solve_problem`: the three
fresh agents, the three fresh tasks in order, sequential process, memory
disabled, `max_rpm=30`, and the ollama embedder configuration. -/
def build_crew (self : MultiModelCrew) (problem : String) : CrewT :=
  ⟨[analyst_agent self, researcher_agent self, synthesizer_agent self],
   [analysis_task self problem, research_task self problem, synthesis_task self problem],
   ProcessT.sequential,
   true,
   false,
   30,
   ⟨"ollama", "nomic-embed-text", "http://localhost:11434"⟩⟩

/-- Outcome of `crew.kickoff(...)`: a result string, or the message of the
exception it raised. -/
structure KickoffEnv where
  kickoff : CrewT → String → Except String String

/-- Embeds `MultiModelCrew.solve_problem`: build the fresh crew, run
`crew.kickoff` under a try/except that converts any exception into the
string `"Error: " ++ message`; the instance state is returned unchanged,
mirroring that the method assigns to no attribute of `self`. -/
def solve_problem (self : MultiModelCrew) (env : KickoffEnv) (problem : String) :
    String × MultiModelCrew :=
  let crew := build_crew self problem
  match env.kickoff crew problem with
  | .ok result => (result, self)
  | .error e => ("Error: " ++ e, self)

/-- Modelled from the spec: the crewai execution engine is not part of
this repository; per the spec, a sequential-process crew executes its
tasks in list order, no task starting before the previous one finished,
and each task receives its description together with the completed
outputs of its declared context tasks.  The call of an agent's language
model is abstracted as an oracle from agent and input text to output
text.  The result lists each task (keyed by description) with its output,
in execution order. -/
def run_sequential (o : AgentT → String → String) :
    List TaskT → List (String × String) → List (String × String)
  | [], done => done.reverse
  | t :: rest, done =>
      let input := t.description ++
        String.join (t.context.map (fun c => ((done.lookup c.description).getD "")))
      run_sequential o rest ((t.description, o t.agent input) :: done)

/-- Output of the analysis stage: the plan produced from the interpolated
problem description. -/
def planOf (self : MultiModelCrew) (o : AgentT → String → String)
    (problem : String) : String :=
  o (analyst_agent self) (analysis_description problem)

/-- Output of the research stage: the report produced from the research
description extended with the completed plan. -/
def reportOf (self : MultiModelCrew) (o : AgentT → String → String)
    (problem : String) : String :=
  o (researcher_agent self) (research_description ++ planOf self o problem)

/-- Input handed to the synthesis stage: its constant description extended
with the research report — and nothing else. -/
def synthesis_input (self : MultiModelCrew) (o : AgentT → String → String)
    (problem : String) : String :=
  synthesis_description ++ reportOf self o problem

/-- Output of the synthesis stage. -/
def finalOf (self : MultiModelCrew) (o : AgentT → String → String)
    (problem : String) : String :=
  o (synthesizer_agent self) (synthesis_input self o problem)

/-- Sequential execution of the crew built by `solve_problem` unfolds to
the three chained stage outputs, in order. -/
theorem run_sequential_build_crew (self : MultiModelCrew)
    (o : AgentT → String → String) (problem : String) :
    run_sequential o (build_crew self problem).tasks [] =
      [(analysis_description problem, planOf self o problem),
       (research_description, reportOf self o problem),
       (synthesis_description, finalOf self o problem)] := by
  simp [run_sequential, build_crew, analysis_task, research_task, synthesis_task,
    TaskT.description, TaskT.context, TaskT.agent, String.join, planOf, reportOf,
    synthesis_input, finalOf]

/-- C7: the three stages are chained through declared data dependencies —
the research task declares the analysis task as its context, the synthesis
task declares the research task — the crew runs them as a sequential
process in pipeline order, and under the spec-modelled sequential
execution each stage output is produced from the completed output of the
previous stage: the pipeline trace is analysis, then research (its input
extending the finished plan), then synthesis (its input extending the
finished report). -/
theorem pipeline_sequential_chain (self : MultiModelCrew)
    (o : AgentT → String → String) (problem : String) :
    (research_task self problem).context = [analysis_task self problem] ∧
    (synthesis_task self problem).context = [research_task self problem] ∧
    (build_crew self problem).process = ProcessT.sequential ∧
    (build_crew self problem).tasks =
      [analysis_task self problem, research_task self problem, synthesis_task self problem] ∧
    run_sequential o (build_crew self problem).tasks [] =
      [(analysis_description problem, planOf self o problem),
       (research_description, reportOf self o problem),
       (synthesis_description, finalOf self o problem)] ∧
    reportOf self o problem =
      o (researcher_agent self) (research_description ++ planOf self o problem) ∧
    finalOf self o problem =
      o (synthesizer_agent self) (synthesis_description ++ reportOf self o problem) :=
  ⟨rfl, rfl, rfl, rfl, run_sequential_build_crew self o problem, rfl, rfl⟩

/-- C5: the synthesis task declares only the research task as context, its
description is a constant independent of the problem, and across two runs
that differ in the problem but agree on the research report, the synthesis
stage receives the identical input and hence produces the identical
output. -/
theorem synthesis_only_depends_on_report (self : MultiModelCrew)
    (o : AgentT → String → String) (p1 p2 : String)
    (h : reportOf self o p1 = reportOf self o p2) :
    (synthesis_task self p1).context = [research_task self p1] ∧
    (synthesis_task self p1).description = (synthesis_task self p2).description ∧
    synthesis_input self o p1 = synthesis_input self o p2 ∧
    finalOf self o p1 = finalOf self o p2 := by
  refine ⟨rfl, rfl, ?_, ?_⟩
  · unfold synthesis_input
    rw [h]
  · unfold finalOf synthesis_input
    rw [h]

/-- Witness for C5: under an oracle that answers every stage with a fixed
report, two different problems yield the same research report and the
synthesis inputs and outputs coincide. -/
theorem synthesis_only_depends_on_report_witness :
    synthesis_input MultiModelCrew.init (fun _ _ => "the report")
        "What is 2+2?" =
      synthesis_input MultiModelCrew.init (fun _ _ => "the report")
        "Design a sustainable energy solution." ∧
    finalOf MultiModelCrew.init (fun _ _ => "the report") "What is 2+2?" =
      finalOf MultiModelCrew.init (fun _ _ => "the report")
        "Design a sustainable energy solution." :=
  ⟨(synthesis_only_depends_on_report MultiModelCrew.init (fun _ _ => "the report")
      "What is 2+2?" "Design a sustainable energy solution." rfl).2.2.1,
   (synthesis_only_depends_on_report MultiModelCrew.init (fun _ _ => "the report")
      "What is 2+2?" "Design a sustainable energy solution." rfl).2.2.2⟩

/-- C4: `solve_problem` converts any exception raised by the pipeline run
into the returned string `"Error: " ++ message` and returns a successful
result unchanged — in both cases an ordinary `String`, so only string
inspection separates the two; no exception escapes, the embedding being a
total function into `String`. -/
theorem solve_problem_catches_exceptions (self : MultiModelCrew)
    (env : KickoffEnv) (problem : String) :
    (∀ e, env.kickoff (build_crew self problem) problem = .error e →
      (solve_problem self env problem).1 = "Error: " ++ e) ∧
    (∀ r, env.kickoff (build_crew self problem) problem = .ok r →
      (solve_problem self env problem).1 = r) := by
  constructor
  · intro e h
    simp [solve_problem, h]
  · intro r h
    simp [solve_problem, h]

/-- Witness for C4: a kickoff that raises with message "boom" makes
`solve_problem` return the string "Error: boom". -/
theorem solve_problem_catches_exceptions_witness :
    (solve_problem MultiModelCrew.init ⟨fun _ _ => .error ("boom")⟩
        "What is 2+2?").1 = "Error: boom" :=
  (solve_problem_catches_exceptions MultiModelCrew.init ⟨fun _ _ => .error ("boom")⟩
    "What is 2+2?").1 "boom" rfl

/-- C6: `solve_problem` leaves every field of the instance unchanged, the
crew it builds is fresh from instance state and problem alone with
long-term memory disabled and the request rate capped at 30 per minute,
and a second call with the same problem sees the same state, builds the
same fresh crew, and returns the same result. -/
theorem solve_problem_frame (self : MultiModelCrew) (env : KickoffEnv)
    (problem : String) :
    (solve_problem self env problem).2 = self ∧
    (build_crew self problem).memory = false ∧
    (build_crew self problem).max_rpm = 30 ∧
    build_crew (solve_problem self env problem).2 problem = build_crew self problem ∧
    (solve_problem (solve_problem self env problem).2 env problem).1 =
      (solve_problem self env problem).1 := by
  have hframe : (solve_problem self env problem).2 = self := by
    cases h : env.kickoff (build_crew self problem) problem with
    | ok r => simp [solve_problem, h]
    | error e => simp [solve_problem, h]
  refine ⟨hframe, rfl, rfl, by rw [hframe], by rw [hframe]⟩
